import Mathlib

/-!
Verification of the Allegro-hand control node (`allegro_node.cpp`).

The development shallowly embeds the control loop of
`src/allegro_hand_controllers/src/allegro_node.cpp`:

* timestamps are nanosecond integers; a ROS duration `tnow - tstart` is
  normalized so that its `nsec` field lies in `[0, 10^9)`, which is exactly
  `(tnow - tstart) % 10^9` with Euclidean remainder;
* the C++ `double` arithmetic of the filter is embedded over `ℚ`
  (coefficients `0.6` and `0.198` are exact decimal literals);
* the CAN bus is an environment input per tick (a status code and a joint
  position vector) plus an observable trace of bus operations;
* publication is an observable optional message per tick.
-/

namespace AllegroHand

/-- Number of joints (`DOF_JOINTS` in the source). -/
def DOF_JOINTS : Nat := 16

/-- A fixed-size per-joint vector of reals (C++ `double[DOF_JOINTS]`). -/
abbrev JointVector := Fin DOF_JOINTS → ℚ

/-- The all-zero joint vector. -/
def zeroVector : JointVector := fun _ => 0

/-- Nanoseconds per second. -/
def NSEC_PER_SEC : Int := 1000000000

/-- The `nsec` field of the normalized ROS duration whose total length is
`d` nanoseconds.  ROS normalizes a duration so that `0 ≤ nsec < 10^9`
(`sec` takes the sign), hence the field equals the Euclidean remainder. -/
def rosDurationNsecField (d : Int) : Int := d % NSEC_PER_SEC

/-- `dt` exactly as the source computes it at line 108:
`dt = 1e-9 * (tnow - tstart).nsec` — note it uses only the `nsec` FIELD of
the duration, not the whole duration. -/
def dtCode (tnow tstart : Int) : ℚ :=
  (rosDurationNsecField (tnow - tstart) : ℚ) / (NSEC_PER_SEC : ℚ)

/-- Persistent state of the node across ticks: the member buffers of
`AllegroNode` that survive from one `updateController` call to the next.
(`tnow` and `dt` members are rewritten at the top of every tick before any
use, so they are modelled as tick-locals.) -/
structure HandState where
  tstart : Int
  current_position : JointVector
  previous_position : JointVector
  current_position_filtered : JointVector
  previous_position_filtered : JointVector
  current_velocity : JointVector
  previous_velocity : JointVector
  current_velocity_filtered : JointVector
  desired_torque : JointVector
  lEmergencyStop : Int
  frame : Nat

/-- Per-tick input from the CAN bus: the status code returned by
`canDevice->Update()` and the joint positions filled by
`canDevice->getJointInfo(...)`. -/
structure BusInput where
  status : Int
  positions : JointVector

/-- Observable operations on the bus transport, in the order issued. -/
inductive BusOp where
  | setTorque (tau : JointVector)
  | update (status : Int)
  | getJointInfo (pos : JointVector)

/-- Result of `updateWriteReadCAN`: the new state and the bus operations
performed. -/
structure CANResult where
  state : HandState
  ops : List BusOp

/-- `AllegroNode::updateWriteReadCAN` (lines 90–103): send the desired
torque, run one bus exchange recording its status in `lEmergencyStop`,
read the joint positions.  The `if (lEmergencyStop < 0)` body is entirely
commented out in the source, so a negative status has no effect beyond
being stored. -/
def updateWriteReadCAN (s : HandState) (b : BusInput) : CANResult :=
  { state := { s with lEmergencyStop := b.status, current_position := b.positions },
    ops := [BusOp.setTorque s.desired_torque, BusOp.update b.status,
            BusOp.getJointInfo b.positions] }

/-- Modelled from the spec: `computeDesiredTorque` is a pure virtual method of
`AllegroNode`; its implementations live in controller subclasses that are not
under `src/`.  Per the spec it is an injected strategy that reads the filtered
state (and the Command Inbox, which a caller may capture in the closure) and
returns the desired-torque vector.  It takes the filtered position and the
filtered velocity. -/
def TorqueHook : Type := JointVector → JointVector → JointVector

/-- A message published on the joint-state topic by `publishData`
(lines 79–88). -/
structure PubMsg where
  stamp : Int
  position : JointVector
  velocity : JointVector
  effort : JointVector

/-- Result of one `updateController` tick: the new state, the bus
operations performed, and the message published (if any). -/
structure TickResult where
  state : HandState
  busOps : List BusOp
  published : Option PubMsg

/-- The early-return path of `updateController` (lines 112–115): when
`dt <= 0` the tick does nothing at all. -/
def tickSkip (s : HandState) : TickResult :=
  { state := s, busOps := [], published := none }

/-- The body of `updateController` after the `dt` guard (lines 117–145):
advance `tstart`, archive the previous-iteration buffers, do the CAN
write/read, low-pass filter, compute the desired torque, publish, and
increment the frame counter.  Note line 134 first sets
`current_velocity[i]` to the filtered-position finite difference (used by
the velocity filter at line 135–137) and line 138 then OVERWRITES it with
the raw-position finite difference, which is what the next tick archives
as `previous_velocity`. -/
def tickProceed (hook : TorqueHook) (s : HandState) (tnow : Int) (b : BusInput) :
    TickResult :=
  let dt := dtCode tnow s.tstart
  let sArch := { s with
    tstart := tnow,
    previous_position := s.current_position,
    previous_position_filtered := s.current_position_filtered,
    previous_velocity := s.current_velocity }
  let can := updateWriteReadCAN sArch b
  let s2 := can.state
  let cpf : JointVector := fun i =>
    0.6 * s2.current_position_filtered i + 0.198 * s2.previous_position i +
      0.198 * s2.current_position i
  let vTmp : JointVector := fun i => (cpf i - s2.previous_position_filtered i) / dt
  let cvf : JointVector := fun i =>
    0.6 * s2.current_velocity_filtered i + 0.198 * s2.previous_velocity i +
      0.198 * vTmp i
  let cvRaw : JointVector := fun i => (s2.current_position i - s2.previous_position i) / dt
  let s3 := { s2 with
    current_position_filtered := cpf,
    current_velocity := cvRaw,
    current_velocity_filtered := cvf }
  let tau := hook s3.current_position_filtered s3.current_velocity_filtered
  let s4 := { s3 with desired_torque := tau }
  let msg : PubMsg :=
    { stamp := tnow, position := s4.current_position_filtered,
      velocity := s4.current_velocity_filtered, effort := s4.desired_torque }
  { state := { s4 with frame := s4.frame + 1 }, busOps := can.ops,
    published := some msg }

/-- `AllegroNode::updateController` (lines 105–146): compute `dt`; if
`dt <= 0` return immediately (nothing else happens this tick), otherwise
run the full tick body. -/
def updateController (hook : TorqueHook) (s : HandState) (tnow : Int) (b : BusInput) :
    TickResult :=
  if dtCode tnow s.tstart ≤ 0 then tickSkip s else tickProceed hook s tnow b

/-- Modelled from the spec: the member declarations of `allegro_node.h` are
not under `src/`; the spec states that all per-joint buffers are allocated at
startup zero-initialized, so the buffers that the constructor body does not
assign (`current_position`, `previous_position`, `previous_position_filtered`,
`previous_velocity`) and the scalars start at zero. -/
def headerState : HandState :=
  { tstart := 0,
    current_position := zeroVector,
    previous_position := zeroVector,
    current_position_filtered := zeroVector,
    previous_position_filtered := zeroVector,
    current_velocity := zeroVector,
    previous_velocity := zeroVector,
    current_velocity_filtered := zeroVector,
    desired_torque := zeroVector,
    lEmergencyStop := 0,
    frame := 0 }

/-- `AllegroNode::AllegroNode` (lines 19–65): the constructor loop zeroes
`desired_torque`, `current_velocity`, `current_position_filtered` and
`current_velocity_filtered`; then, when not simulated, it performs one full
CAN write/read (`updateWriteReadCAN`) before `tstart` is set to the
construction time `t0`. -/
def constructorRun (sim : Bool) (b : BusInput) (t0 : Int) : CANResult :=
  let s0 := { headerState with
    desired_torque := zeroVector,
    current_velocity := zeroVector,
    current_position_filtered := zeroVector,
    current_velocity_filtered := zeroVector }
  if sim then { state := { s0 with tstart := t0 }, ops := [] }
  else
    let can := updateWriteReadCAN s0 b
    { state := { can.state with tstart := t0 }, ops := can.ops }

/-- A joint-state message as carried by the Command Inbox
(`sensor_msgs::JointState`: name, position, velocity, effort arrays). -/
structure JointStateMsg where
  name : List String
  position : List ℚ
  velocity : List ℚ
  effort : List ℚ

/-- `AllegroNode::desiredStateCallback` (lines 73–77): under the mutex,
overwrite the held desired state with the incoming message (the spec's
`setDesired`). -/
def desiredStateCallback (_inbox : JointStateMsg) (msg : JointStateMsg) : JointStateMsg :=
  msg

/-- Modelled from the spec: the readers of `desired_joint_state_` live in
controller subclasses outside `src/`; per spec §4.1 `getDesired` returns
the most recently held value under the same mutex. -/
def getDesired (inbox : JointStateMsg) : JointStateMsg := inbox

/-!
Interleaving model of the Command Inbox for the data-race claim.

Modelled from the spec: only the writer side (`desiredStateCallback`:
lock, copy the message, unlock) is under `src/`; the reader side and the
two-thread scheduling are described by spec §4.1/§5 (one asynchronous
writer, the control cycle as reader, both holding one exclusive lock
around a field-by-field copy).  Each field stores the index of the write
it came from, so a torn read would show up as unequal indices.  The lock
is encoded as a number: 0 = free, 1 = held by the writer, 2 = held by the
reader.
-/

/-- Global state of the two-thread inbox system.  `wpc`/`rpc` are the
program counters of the writer and the reader inside the critical section
(0 = outside, 1 = lock just taken, 2/3/4 = after copying position /
velocity / effort).  `wcur` is the index of the write in progress (or of
the next write), and `slotPos`/`slotVel`/`slotEff` record which write each
inbox field currently comes from; `rPos`/`rVel`/`rEff` are the reader's
copies. -/
structure InboxSys where
  lock : Nat
  slotPos : Nat
  slotVel : Nat
  slotEff : Nat
  wpc : Nat
  wcur : Nat
  rpc : Nat
  rPos : Nat
  rVel : Nat
  rEff : Nat

/-- Initial inbox state: lock free, both threads outside, the inbox holding
the (empty) write number 0, the first real write being number 1. -/
def inboxInit : InboxSys :=
  { lock := 0, slotPos := 0, slotVel := 0, slotEff := 0,
    wpc := 0, wcur := 1, rpc := 0, rPos := 0, rVel := 0, rEff := 0 }

/-- One interleaved step of the inbox system: the writer or the reader
takes the lock when free, copies one field at a time while holding it, and
releases it. -/
inductive InboxStep : InboxSys → InboxSys → Prop where
  | wLock (s : InboxSys) (hfree : s.lock = 0) (hpc : s.wpc = 0) :
      InboxStep s { s with lock := 1, wpc := 1 }
  | wWritePos (s : InboxSys) (hpc : s.wpc = 1) :
      InboxStep s { s with slotPos := s.wcur, wpc := 2 }
  | wWriteVel (s : InboxSys) (hpc : s.wpc = 2) :
      InboxStep s { s with slotVel := s.wcur, wpc := 3 }
  | wWriteEff (s : InboxSys) (hpc : s.wpc = 3) :
      InboxStep s { s with slotEff := s.wcur, wpc := 4 }
  | wUnlock (s : InboxSys) (hpc : s.wpc = 4) :
      InboxStep s { s with lock := 0, wpc := 0, wcur := s.wcur + 1 }
  | rLock (s : InboxSys) (hfree : s.lock = 0) (hpc : s.rpc = 0) :
      InboxStep s { s with lock := 2, rpc := 1 }
  | rReadPos (s : InboxSys) (hpc : s.rpc = 1) :
      InboxStep s { s with rPos := s.slotPos, rpc := 2 }
  | rReadVel (s : InboxSys) (hpc : s.rpc = 2) :
      InboxStep s { s with rVel := s.slotVel, rpc := 3 }
  | rReadEff (s : InboxSys) (hpc : s.rpc = 3) :
      InboxStep s { s with rEff := s.slotEff, rpc := 4 }
  | rUnlock (s : InboxSys) (hpc : s.rpc = 4) :
      InboxStep s { s with lock := 0, rpc := 0 }

/-- States reachable from the initial inbox state. -/
inductive InboxReachable : InboxSys → Prop where
  | init : InboxReachable inboxInit
  | step (s s' : InboxSys) : InboxReachable s → InboxStep s s' → InboxReachable s'

/-- Inductive invariant of the inbox system: lock ownership matches the
program counters, the slot fields are torn only while the writer holds the
lock (and then in the precise prefix pattern of the copy), and a completed
read holds three fields from one single completed write. -/
def InboxInv (s : InboxSys) : Prop :=
  s.wpc ≤ 4 ∧ s.rpc ≤ 4 ∧
  (1 ≤ s.wpc → s.lock = 1) ∧
  (1 ≤ s.rpc → s.lock = 2) ∧
  (s.wpc ≤ 1 → s.slotPos = s.slotVel ∧ s.slotVel = s.slotEff ∧ s.slotPos < s.wcur) ∧
  (s.wpc = 2 → s.slotPos = s.wcur ∧ s.slotVel = s.slotEff ∧ s.slotVel < s.wcur) ∧
  (s.wpc = 3 → s.slotPos = s.wcur ∧ s.slotVel = s.wcur ∧ s.slotEff < s.wcur) ∧
  (s.wpc = 4 → s.slotPos = s.wcur ∧ s.slotVel = s.wcur ∧ s.slotEff = s.wcur) ∧
  (2 ≤ s.rpc → s.rPos = s.slotPos) ∧
  (3 ≤ s.rpc → s.rVel = s.slotVel) ∧
  (s.rpc = 4 → s.rEff = s.slotEff) ∧
  (s.rpc = 0 → s.rPos = s.rVel ∧ s.rVel = s.rEff ∧ s.rPos < s.wcur)

/-- Joint index 0, used for concrete evaluations. -/
def j0 : Fin DOF_JOINTS := ⟨0, by decide⟩

/-- Bus environment that always answers with status 0 and every joint at
position 1. -/
def constBus : BusInput := { status := 0, positions := fun _ => 1 }

/-- A torque hook that always returns the zero torque vector. -/
def zeroHook : TorqueHook := fun _ _ => zeroVector

/-- Node state right after a simulated construction at time 0. -/
def simStart : HandState := (constructorRun true constBus 0).state

/-- Run the controller from the freshly constructed state with ticks every
half second (so every `dt` is the positive value `1/2`) against the
constant bus environment `constBus`. -/
def runConst : Nat → HandState
  | 0 => simStart
  | n + 1 =>
      (updateController zeroHook (runConst n) (((n : Int) + 1) * 500000000) constBus).state

/-- Erase the status payload of a bus `update` operation (used to compare
two bus traces up to the status code the hardware happened to return). -/
def eraseStatus : BusOp → BusOp
  | BusOp.update _ => BusOp.update 0
  | op => op

/-- The payload of the first `setTorque` operation in a bus trace. -/
def firstSetTorque : List BusOp → Option JointVector
  | [] => none
  | BusOp.setTorque t :: _ => some t
  | _ :: rest => firstSetTorque rest

/-- Run a sequence of controller ticks (each given its wall-clock time and
bus environment), collecting the bus operations in order. -/
def runTicks (hook : TorqueHook) : HandState → List (Int × BusInput) → HandState × List BusOp
  | s, [] => (s, [])
  | s, tb :: rest =>
      let r := updateController hook s tb.1 tb.2
      let next := runTicks hook r.state rest
      (next.1, r.busOps ++ next.2)

/-- All bus operations of a non-simulated node run: those issued inside the
constructor followed by those of every subsequent timer tick (the timer is
only started after construction, so every tick's bus traffic comes after
the constructor's). -/
def systemBusTrace (hook : TorqueHook) (b0 : BusInput) (t0 : Int)
    (ticks : List (Int × BusInput)) : List BusOp :=
  let c := constructorRun false b0 t0
  c.ops ++ (runTicks hook c.state ticks).2

/-- A concrete inbox-system state in which the reader has just finished
copying all three fields of the initial message. -/
def inboxDemo : InboxSys :=
  { lock := 2, slotPos := 0, slotVel := 0, slotEff := 0,
    wpc := 0, wcur := 1, rpc := 4, rPos := 0, rVel := 0, rEff := 0 }

lemma inboxInv_init : InboxInv inboxInit := by
  simp [InboxInv, inboxInit]

set_option maxHeartbeats 1600000 in
lemma inboxInv_step (s s' : InboxSys) (hinv : InboxInv s) (hstep : InboxStep s s') :
    InboxInv s' := by
  cases hstep <;> (unfold InboxInv at hinv ⊢; dsimp only at hinv ⊢; omega)

lemma inboxInv_reachable (s : InboxSys) (h : InboxReachable s) : InboxInv s := by
  induction h with
  | init => exact inboxInv_init
  | step s s' _ hstep ih => exact inboxInv_step s s' ih hstep

lemma inboxDemo_reachable : InboxReachable inboxDemo := by
  have h0 : InboxReachable inboxInit := InboxReachable.init
  have h1 := InboxReachable.step _ _ h0 (InboxStep.rLock inboxInit rfl rfl)
  have h2 := InboxReachable.step _ _ h1 (InboxStep.rReadPos _ rfl)
  have h3 := InboxReachable.step _ _ h2 (InboxStep.rReadVel _ rfl)
  have h4 := InboxReachable.step _ _ h3 (InboxStep.rReadEff _ rfl)
  exact h4

lemma updateController_nonpos (hook : TorqueHook) (s : HandState) (tnow : Int)
    (b : BusInput) (h : dtCode tnow s.tstart ≤ 0) :
    updateController hook s tnow b = tickSkip s := by
  unfold updateController
  rw [if_pos h]

lemma updateController_pos (hook : TorqueHook) (s : HandState) (tnow : Int)
    (b : BusInput) (h : 0 < dtCode tnow s.tstart) :
    updateController hook s tnow b = tickProceed hook s tnow b := by
  unfold updateController
  rw [if_neg (not_le.mpr h)]

lemma tickProceed_tstart (hook : TorqueHook) (s : HandState) (tnow : Int) (b : BusInput) :
    (tickProceed hook s tnow b).state.tstart = tnow := rfl

lemma tickProceed_frame (hook : TorqueHook) (s : HandState) (tnow : Int) (b : BusInput) :
    (tickProceed hook s tnow b).state.frame = s.frame + 1 := rfl

lemma tickProceed_cur_pos (hook : TorqueHook) (s : HandState) (tnow : Int) (b : BusInput) :
    (tickProceed hook s tnow b).state.current_position = b.positions := rfl

lemma tickProceed_cpf (hook : TorqueHook) (s : HandState) (tnow : Int) (b : BusInput)
    (i : Fin DOF_JOINTS) :
    (tickProceed hook s tnow b).state.current_position_filtered i =
      0.6 * s.current_position_filtered i + 0.198 * s.current_position i +
        0.198 * b.positions i := rfl

lemma tickProceed_cv (hook : TorqueHook) (s : HandState) (tnow : Int) (b : BusInput)
    (i : Fin DOF_JOINTS) :
    (tickProceed hook s tnow b).state.current_velocity i =
      (b.positions i - s.current_position i) / dtCode tnow s.tstart := rfl

lemma tickProceed_cvf (hook : TorqueHook) (s : HandState) (tnow : Int) (b : BusInput)
    (i : Fin DOF_JOINTS) :
    (tickProceed hook s tnow b).state.current_velocity_filtered i =
      0.6 * s.current_velocity_filtered i + 0.198 * s.current_velocity i +
        0.198 * (((tickProceed hook s tnow b).state.current_position_filtered i -
          s.current_position_filtered i) / dtCode tnow s.tstart) := rfl

lemma tickProceed_busOps (hook : TorqueHook) (s : HandState) (tnow : Int) (b : BusInput) :
    (tickProceed hook s tnow b).busOps =
      [BusOp.setTorque s.desired_torque, BusOp.update b.status,
       BusOp.getJointInfo b.positions] := rfl

lemma tickProceed_lES (hook : TorqueHook) (s : HandState) (tnow : Int) (b : BusInput) :
    (tickProceed hook s tnow b).state.lEmergencyStop = b.status := rfl

lemma dtHalf (n : Int) : dtCode ((n + 1) * 500000000) (n * 500000000) = 1 / 2 := by
  unfold dtCode rosDurationNsecField NSEC_PER_SEC
  have hd : (n + 1) * 500000000 - n * 500000000 = (500000000 : Int) := by ring
  rw [hd]
  have he : (500000000 : Int) % 1000000000 = 500000000 := by decide
  rw [he]
  norm_num

lemma runConst_tstart (n : Nat) : (runConst n).tstart = (n : Int) * 500000000 := by
  induction n with
  | zero => simp [runConst, simStart, constructorRun]
  | succ n ih =>
      have hdt : 0 < dtCode (((n : Int) + 1) * 500000000) ((runConst n).tstart) := by
        rw [ih, dtHalf]
        norm_num
      show (updateController zeroHook (runConst n) (((n : Int) + 1) * 500000000)
        constBus).state.tstart = _
      rw [updateController_pos _ _ _ _ hdt, tickProceed_tstart]
      push_cast
      ring

lemma runConst_succ (n : Nat) :
    runConst (n + 1) =
      (tickProceed zeroHook (runConst n) (((n : Int) + 1) * 500000000) constBus).state := by
  have hdt : 0 < dtCode (((n : Int) + 1) * 500000000) ((runConst n).tstart) := by
    rw [runConst_tstart, dtHalf]
    norm_num
  show (updateController zeroHook (runConst n) (((n : Int) + 1) * 500000000)
    constBus).state = _
  rw [updateController_pos _ _ _ _ hdt]

lemma runConst_cur_pos (n : Nat) : (runConst (n + 1)).current_position j0 = 1 := by
  rw [runConst_succ]
  rfl

lemma runConst_cpf_succ (n : Nat) :
    (runConst (n + 1)).current_position_filtered j0 =
      0.6 * (runConst n).current_position_filtered j0 +
        0.198 * (runConst n).current_position j0 + 0.198 * 1 := by
  rw [runConst_succ]
  exact tickProceed_cpf zeroHook (runConst n) (((n : Int) + 1) * 500000000) constBus j0

lemma runConst_cpf_closed (n : Nat) :
    (runConst (n + 1)).current_position_filtered j0 =
      99 / 100 - (99 / 125) * (3 / 5 : ℚ) ^ n := by
  induction n with
  | zero =>
      rw [runConst_cpf_succ 0]
      have h1 : (runConst 0).current_position_filtered j0 = 0 := rfl
      have h2 : (runConst 0).current_position j0 = 0 := rfl
      rw [h1, h2]
      norm_num
  | succ n ih =>
      rw [runConst_cpf_succ (n + 1), runConst_cur_pos n, ih, pow_succ]
      ring_nf

lemma simStart_tstart : simStart.tstart = 0 := rfl

lemma dt_half_from_simStart : 0 < dtCode 500000000 simStart.tstart := by
  rw [simStart_tstart]
  unfold dtCode rosDurationNsecField NSEC_PER_SEC
  norm_num

lemma dt_zero_from_simStart : dtCode 0 simStart.tstart ≤ 0 := by
  rw [simStart_tstart]
  unfold dtCode rosDurationNsecField NSEC_PER_SEC
  norm_num

/-- C1 (counterexample): on a tick whose computed `dt` is non-positive the
code performs NO bus operation at all — `updateController` returns at the
`dt <= 0` guard before `updateWriteReadCAN` is reached, contradicting the
claim that the three bus-transport operations happen on every tick. -/
theorem nonpos_dt_tick_does_no_bus_io_cex :
    dtCode 0 simStart.tstart ≤ 0 ∧
      (updateController zeroHook simStart 0 constBus).busOps = [] := by
  refine ⟨dt_zero_from_simStart, ?_⟩
  rw [updateController_nonpos _ _ _ _ dt_zero_from_simStart]
  rfl

/-- C1 (amended): the three bus-transport operations (send torque, status
exchange, read positions) are performed, in order, exactly on the ticks
where the computed `dt` is positive; on a non-positive `dt` the whole tick
— bus I/O included — is skipped. -/
theorem bus_io_gated_by_dt (hook : TorqueHook) (s : HandState) (tnow : Int) (b : BusInput) :
    (0 < dtCode tnow s.tstart →
      (updateController hook s tnow b).busOps =
        [BusOp.setTorque s.desired_torque, BusOp.update b.status,
         BusOp.getJointInfo b.positions]) ∧
    (dtCode tnow s.tstart ≤ 0 → (updateController hook s tnow b).busOps = []) := by
  constructor
  · intro h
    rw [updateController_pos _ _ _ _ h]
    exact tickProceed_busOps hook s tnow b
  · intro h
    rw [updateController_nonpos _ _ _ _ h]
    rfl

/-- Witness for `bus_io_gated_by_dt` at a concrete positive-`dt` tick. -/
theorem bus_io_gated_by_dt_witness :
    0 < dtCode 500000000 simStart.tstart ∧
      (updateController zeroHook simStart 500000000 constBus).busOps =
        [BusOp.setTorque simStart.desired_torque, BusOp.update constBus.status,
         BusOp.getJointInfo constBus.positions] :=
  ⟨dt_half_from_simStart,
    (bus_io_gated_by_dt zeroHook simStart 500000000 constBus).1 dt_half_from_simStart⟩

/-- C2: a tick with non-positive `dt` changes nothing: the whole state
(hence filtered position, filtered velocity, desired torque, `tstart` and
the frame counter) is exactly the pre-tick state, no bus operation is
issued and no message is published. -/
theorem nonpos_dt_tick_is_noop (hook : TorqueHook) (s : HandState) (tnow : Int)
    (b : BusInput) (h : dtCode tnow s.tstart ≤ 0) :
    (updateController hook s tnow b).state = s ∧
    (updateController hook s tnow b).state.current_position_filtered =
      s.current_position_filtered ∧
    (updateController hook s tnow b).state.current_velocity_filtered =
      s.current_velocity_filtered ∧
    (updateController hook s tnow b).state.desired_torque = s.desired_torque ∧
    (updateController hook s tnow b).state.tstart = s.tstart ∧
    (updateController hook s tnow b).state.frame = s.frame ∧
    (updateController hook s tnow b).published = none ∧
    (updateController hook s tnow b).busOps = [] := by
  rw [updateController_nonpos _ _ _ _ h]
  exact ⟨rfl, rfl, rfl, rfl, rfl, rfl, rfl, rfl⟩

/-- Witness for `nonpos_dt_tick_is_noop` at a concrete zero-`dt` tick. -/
theorem nonpos_dt_tick_is_noop_witness :
    dtCode 0 simStart.tstart ≤ 0 ∧
      (updateController zeroHook simStart 0 constBus).state = simStart :=
  ⟨dt_zero_from_simStart,
    (nonpos_dt_tick_is_noop zeroHook simStart 0 constBus dt_zero_from_simStart).1⟩

/-- C3 (code bug): for an elapsed interval of 1.5 s (`tstart = 0`,
`tnow = 1500000000` ns) the code computes `dt = 0.5` s because line 108
reads only the `nsec` field of the ROS duration, dropping the whole-second
component; the full timestamp difference in seconds is `1.5`. -/
theorem dt_drops_whole_seconds_bug :
    dtCode 1500000000 0 = 1 / 2 ∧
      ((1500000000 : Int) - 0 : ℚ) / (NSEC_PER_SEC : ℚ) = 3 / 2 ∧
      (1 / 2 : ℚ) ≠ 3 / 2 := by
  refine ⟨?_, ?_, by norm_num⟩
  · unfold dtCode rosDurationNsecField NSEC_PER_SEC
    norm_num
  · unfold NSEC_PER_SEC
    norm_num

/-- C4 (counterexample): one concrete positive-`dt` tick (zero initial
state, raw position 1, `dt = 1/2`) after which the stored current velocity
— the value the next tick archives as `previousVelocity` — is `2`, the
RAW-position finite difference, while the filtered-position finite
difference of that tick is `0.396 = 99/250`: the two differ, refuting the
claim that the carried velocity is the filtered-position difference. -/
theorem carried_velocity_is_raw_diff_cex :
    (updateController zeroHook simStart 500000000 constBus).state.current_velocity j0 = 2 ∧
      ((updateController zeroHook simStart 500000000 constBus).state.current_position_filtered j0
          - simStart.current_position_filtered j0) / dtCode 500000000 simStart.tstart =
        99 / 250 ∧
      (2 : ℚ) ≠ 99 / 250 := by
  rw [updateController_pos _ _ _ _ dt_half_from_simStart]
  refine ⟨?_, ?_, by norm_num⟩
  · rw [tickProceed_cv]
    have h1 : constBus.positions j0 = 1 := rfl
    have h2 : simStart.current_position j0 = 0 := rfl
    rw [h1, h2, simStart_tstart]
    unfold dtCode rosDurationNsecField NSEC_PER_SEC
    norm_num
  · rw [tickProceed_cpf]
    have h1 : constBus.positions j0 = 1 := rfl
    have h2 : simStart.current_position j0 = 0 := rfl
    have h3 : simStart.current_position_filtered j0 = 0 := rfl
    rw [h1, h2, h3, simStart_tstart]
    unfold dtCode rosDurationNsecField NSEC_PER_SEC
    norm_num

/-- C4 (amended): on every tick with positive `dt`, per joint, the new
filtered position is `0.6*filteredPosition + 0.198*previousRawPosition +
0.198*rawPosition`; the new filtered velocity is `0.6*filteredVelocity +
0.198*previousVelocity + 0.198*velocity` where `velocity` is the
filtered-position finite difference over `dt`; but the velocity value
carried into the next tick as `previousVelocity` is the RAW-position
finite difference `(rawPosition - previousRawPosition)/dt` (line 138
overwrites the filtered-difference value after the velocity filter has
used it). -/
theorem filter_tick_equations (hook : TorqueHook) (s : HandState) (tnow : Int)
    (b : BusInput) (h : 0 < dtCode tnow s.tstart) (i : Fin DOF_JOINTS) :
    (updateController hook s tnow b).state.current_position_filtered i =
      0.6 * s.current_position_filtered i + 0.198 * s.current_position i +
        0.198 * b.positions i ∧
    (updateController hook s tnow b).state.current_velocity_filtered i =
      0.6 * s.current_velocity_filtered i + 0.198 * s.current_velocity i +
        0.198 * (((updateController hook s tnow b).state.current_position_filtered i -
          s.current_position_filtered i) / dtCode tnow s.tstart) ∧
    (updateController hook s tnow b).state.current_velocity i =
      (b.positions i - s.current_position i) / dtCode tnow s.tstart := by
  rw [updateController_pos _ _ _ _ h]
  exact ⟨tickProceed_cpf hook s tnow b i, tickProceed_cvf hook s tnow b i,
    tickProceed_cv hook s tnow b i⟩

/-- Witness for `filter_tick_equations` at a concrete positive-`dt` tick. -/
theorem filter_tick_equations_witness :
    0 < dtCode 500000000 simStart.tstart ∧
      (updateController zeroHook simStart 500000000 constBus).state.current_velocity j0 =
        (constBus.positions j0 - simStart.current_position j0) /
          dtCode 500000000 simStart.tstart :=
  ⟨dt_half_from_simStart,
    (filter_tick_equations zeroHook simStart 500000000 constBus dt_half_from_simStart j0).2.2⟩

lemma fp_step_value : (runConst 1).current_position_filtered j0 = 198 / 1000 := by
  rw [runConst_cpf_closed 0]
  norm_num

lemma fp_conv (ε : ℚ) (hε : 0 < ε) :
    ∃ N : Nat, ∀ n : Nat, N ≤ n →
      |(runConst n).current_position_filtered j0 - 99 / 100| < ε := by
  obtain ⟨m, hm⟩ := exists_pow_lt_of_lt_one (x := ε * (125 / 99)) (y := (3 / 5 : ℚ))
    (by positivity) (by norm_num)
  refine ⟨m + 1, fun n hn => ?_⟩
  obtain ⟨k, rfl⟩ : ∃ k, n = k + 1 := ⟨n - 1, by omega⟩
  rw [runConst_cpf_closed k]
  have habs : |99 / 100 - 99 / 125 * (3 / 5 : ℚ) ^ k - 99 / 100| =
      99 / 125 * (3 / 5 : ℚ) ^ k := by
    rw [show (99 / 100 - 99 / 125 * (3 / 5 : ℚ) ^ k - 99 / 100) =
      -(99 / 125 * (3 / 5 : ℚ) ^ k) by ring, abs_neg, abs_of_nonneg (by positivity)]
  rw [habs]
  have hk : (3 / 5 : ℚ) ^ k ≤ (3 / 5 : ℚ) ^ m :=
    pow_le_pow_of_le_one (by norm_num) (by norm_num) (by omega)
  calc 99 / 125 * (3 / 5 : ℚ) ^ k
      ≤ 99 / 125 * (3 / 5 : ℚ) ^ m := by linarith
    _ < 99 / 125 * (ε * (125 / 99)) := by linarith
    _ = ε := by ring

lemma fp_stays_away_from_one (n : Nat) (hn : 1 ≤ n) :
    1 / 100 ≤ |(runConst n).current_position_filtered j0 - 1| := by
  obtain ⟨k, rfl⟩ : ∃ k, n = k + 1 := ⟨n - 1, by omega⟩
  rw [runConst_cpf_closed k]
  have hq : (0 : ℚ) ≤ (3 / 5 : ℚ) ^ k := by positivity
  have habs : |99 / 100 - 99 / 125 * (3 / 5 : ℚ) ^ k - 1| =
      1 / 100 + 99 / 125 * (3 / 5 : ℚ) ^ k := by
    rw [show (99 / 100 - 99 / 125 * (3 / 5 : ℚ) ^ k - 1) =
      -(1 / 100 + 99 / 125 * (3 / 5 : ℚ) ^ k) by ring, abs_neg,
      abs_of_nonneg (by positivity)]
  rw [habs]
  linarith

/-- C5: from zero initial state, one tick with raw position `1.0` yields a
filtered position of exactly `0.198`; the recurrence under a constant raw
input `1.0` has `0.99` as its unique fixed point; the filtered position
converges to `0.99`; and it stays at distance at least `1/100` from `1`,
so it does not converge to `1`. -/
theorem filter_step_and_convergence :
    (runConst 1).current_position_filtered j0 = 198 / 1000 ∧
    (∀ x : ℚ, x = 0.6 * x + 0.198 * 1 + 0.198 * 1 → x = 99 / 100) ∧
    (∀ ε : ℚ, 0 < ε → ∃ N : Nat, ∀ n : Nat, N ≤ n →
      |(runConst n).current_position_filtered j0 - 99 / 100| < ε) ∧
    (∀ n : Nat, 1 ≤ n → 1 / 100 ≤ |(runConst n).current_position_filtered j0 - 1|) := by
  refine ⟨fp_step_value, fun x hx => ?_, fp_conv, fp_stays_away_from_one⟩
  norm_num at hx
  linarith

/-- Witness for `filter_step_and_convergence`: instantiates the convergence
part at `ε = 1/1000` and the distance-from-one part at `n = 5`. -/
theorem filter_step_and_convergence_witness :
    (∃ N : Nat, ∀ n : Nat, N ≤ n →
      |(runConst n).current_position_filtered j0 - 99 / 100| < 1 / 1000) ∧
    1 / 100 ≤ |(runConst 5).current_position_filtered j0 - 1| :=
  ⟨filter_step_and_convergence.2.2.1 (1 / 1000) (by norm_num),
    filter_step_and_convergence.2.2.2 5 (by norm_num)⟩

/-- C6 (counterexample): after a NON-simulated construction with a bus that
reports position `1`, the raw current-position buffer holds `1`, not `0` —
the constructor's initial CAN exchange overwrites it, so not every buffer
is zero after construction. -/
theorem construction_position_from_bus_cex :
    (constructorRun false constBus 0).state.current_position j0 = 1 ∧ (1 : ℚ) ≠ 0 :=
  ⟨rfl, by norm_num⟩

/-- C6 (amended): after construction the desired-torque, current-velocity,
filtered-position, filtered-velocity, previous-raw-position,
previous-filtered-position and previous-velocity buffers are zero in every
slot; the raw current-position buffer is zero in a simulated construction
but holds the constructor's initial CAN read in a non-simulated one. -/
theorem construction_buffer_values (sim : Bool) (b : BusInput) (t0 : Int)
    (i : Fin DOF_JOINTS) :
    (constructorRun sim b t0).state.desired_torque i = 0 ∧
    (constructorRun sim b t0).state.current_velocity i = 0 ∧
    (constructorRun sim b t0).state.current_position_filtered i = 0 ∧
    (constructorRun sim b t0).state.current_velocity_filtered i = 0 ∧
    (constructorRun sim b t0).state.previous_position i = 0 ∧
    (constructorRun sim b t0).state.previous_position_filtered i = 0 ∧
    (constructorRun sim b t0).state.previous_velocity i = 0 ∧
    (constructorRun sim b t0).state.current_position i =
      (if sim then 0 else b.positions i) := by
  cases sim <;>
    simp [constructorRun, updateWriteReadCAN, headerState, zeroVector]

/-- C7: when the bus exchange returns a negative status, the tick only
records it in `lEmergencyStop`: compared with the same tick receiving a
non-negative status (and the same positions), the resulting states agree
on every field once `lEmergencyStop` is masked, the published messages are
identical, the bus traces agree up to the reported status, and on a
positive-`dt` tick the fault flag holds exactly the negative code. -/
theorem bus_fault_only_recorded (hook : TorqueHook) (s : HandState) (tnow : Int)
    (b bp : BusInput) (hpos : b.positions = bp.positions)
    (hneg : b.status < 0) (hnn : 0 ≤ bp.status) :
    ({ (updateController hook s tnow b).state with lEmergencyStop := 0 } =
      { (updateController hook s tnow bp).state with lEmergencyStop := 0 }) ∧
    (updateController hook s tnow b).published =
      (updateController hook s tnow bp).published ∧
    (updateController hook s tnow b).busOps.map eraseStatus =
      (updateController hook s tnow bp).busOps.map eraseStatus ∧
    (0 < dtCode tnow s.tstart →
      (updateController hook s tnow b).state.lEmergencyStop = b.status) := by
  obtain ⟨bs, bq⟩ := b
  obtain ⟨ps, pq⟩ := bp
  dsimp only at hpos hneg hnn ⊢
  subst hpos
  by_cases hdt : dtCode tnow s.tstart ≤ 0
  · rw [updateController_nonpos _ _ _ _ hdt, updateController_nonpos _ _ _ _ hdt]
    exact ⟨rfl, rfl, rfl, fun hp => absurd hdt (not_le.mpr hp)⟩
  · have hp : 0 < dtCode tnow s.tstart := lt_of_not_le hdt
    rw [updateController_pos _ _ _ _ hp, updateController_pos _ _ _ _ hp]
    exact ⟨rfl, rfl, rfl, fun _ => rfl⟩

/-- Witness for `bus_fault_only_recorded` at a concrete tick with status
`-1` versus status `0`. -/
theorem bus_fault_only_recorded_witness :
    (updateController zeroHook simStart 500000000
        { status := -1, positions := fun _ => 1 }).published =
      (updateController zeroHook simStart 500000000 constBus).published ∧
    (updateController zeroHook simStart 500000000
        { status := -1, positions := fun _ => 1 }).state.lEmergencyStop = -1 := by
  have h := bus_fault_only_recorded zeroHook simStart 500000000
    { status := -1, positions := fun _ => 1 } constBus rfl (by norm_num) (le_refl 0)
  exact ⟨h.2.1, h.2.2.2 dt_half_from_simStart⟩

/-- C8: the Command Inbox is last-write-wins: after writing `A` then `B`
with no read in between, a read returns exactly `B`, and the result is
independent of `A` (no field of `A` is observable). -/
theorem inbox_last_write_wins (inbox A B : JointStateMsg) :
    getDesired (desiredStateCallback (desiredStateCallback inbox A) B) = B ∧
    (∀ A' : JointStateMsg,
      desiredStateCallback (desiredStateCallback inbox A') B =
        desiredStateCallback (desiredStateCallback inbox A) B) :=
  ⟨rfl, fun _ => rfl⟩

/-- C9: in the interleaved two-thread model of the Command Inbox, whenever
the reader has completed a read (its program counter is 4), the three
fields it copied all come from one single write, and that write is a
completed past one — no torn read is reachable. -/
theorem inbox_read_untorn (s : InboxSys) (h : InboxReachable s) (hdone : s.rpc = 4) :
    s.rPos = s.rVel ∧ s.rVel = s.rEff ∧ s.rPos < s.wcur := by
  have hinv := inboxInv_reachable s h
  unfold InboxInv at hinv
  omega

/-- Witness for `inbox_read_untorn` at a concrete reachable completed-read
state. -/
theorem inbox_read_untorn_witness :
    inboxDemo.rPos = inboxDemo.rVel ∧ inboxDemo.rVel = inboxDemo.rEff ∧
      inboxDemo.rPos < inboxDemo.wcur :=
  inbox_read_untorn inboxDemo inboxDemo_reachable rfl

/-- C10: a non-simulated construction performs exactly one full bus
exchange (send torque, status exchange, read positions), and over the
whole system trace — constructor followed by any sequence of timer ticks —
the first torque command ever sent is the all-zero vector. -/
theorem first_torque_command_is_zero (hook : TorqueHook) (b0 : BusInput) (t0 : Int)
    (ticks : List (Int × BusInput)) :
    (constructorRun false b0 t0).ops =
      [BusOp.setTorque zeroVector, BusOp.update b0.status,
       BusOp.getJointInfo b0.positions] ∧
    firstSetTorque (systemBusTrace hook b0 t0 ticks) = some zeroVector :=
  ⟨rfl, rfl⟩

end AllegroHand
